import Mathlib

/-!
# Bazaar client: endpoint builder, token refresh and request dispatch

A shallow embedding of `endpoint.go`, `form.go` and `bazaar.go`.

Go strings are modelled by Lean strings.  Every comparison the code makes is
against ASCII text, so comparing characters and comparing bytes agree.
The network and the JSON library are not part of the repository; they enter
the model as explicit parameters (`Net`, `Codec`).
-/

namespace Bazaar

/-! ## endpoint.go -/

/-- Endpoint structure (endpoint.go, lines 17-22).  The Go map `Vars` is an
association list; the most recent binding of a key is the first one. -/
structure Endpoint where
  BaseUrl : String
  Vars : List (String × String)
  Route : String
  AcceessToken : String

/-- Go map indexing `m[k]`: the bound value, or the zero value `""` when the
key is absent. -/
def mapIndex (m : List (String × String)) (k : String) : String :=
  match m.lookup k with
  | some v => v
  | none => ""

/-- Go map assignment `m[k] = v`. -/
def mapAssign (m : List (String × String)) (k v : String) : List (String × String) :=
  (k, v) :: m.filter (fun kv => kv.1 != k)

def Endpoint.setBaseUrl (e : Endpoint) (url : String) : Endpoint :=
  { e with BaseUrl := url }

def Endpoint.setRoute (e : Endpoint) (route : String) : Endpoint :=
  { e with Route := route }

def Endpoint.setOption (e : Endpoint) (key value : String) : Endpoint :=
  { e with Vars := mapAssign e.Vars key value }

def Endpoint.setAccessToken (e : Endpoint) (accessToken : String) : Endpoint :=
  { e with AcceessToken := accessToken }

/-- NewEndpoint (endpoint.go, lines 8-14). -/
def NewEndpoint (route : String) : Endpoint :=
  let e : Endpoint := { BaseUrl := "", Vars := [], Route := "", AcceessToken := "" }
  let e := e.setBaseUrl "https://pardakht.cafebazaar.ir"
  let e := e.setRoute route
  { e with Vars := [] }

/-- The part of `fmt.Sprintf` the code uses: the verb `%s` applied to string
operands.  A `%s` copies the next operand unchanged; with no operand left it
prints `%!s(MISSING)`; `%%` prints a percent sign; every other character of
the format is copied. -/
def sprintfChars : List Char → List String → List Char
  | '%' :: 's' :: rest, a :: args => a.data ++ sprintfChars rest args
  | '%' :: 's' :: rest, [] => "%!s(MISSING)".data ++ sprintfChars rest []
  | '%' :: '%' :: rest, args => '%' :: sprintfChars rest args
  | c :: rest, args => c :: sprintfChars rest args
  | [], _ => []

def Sprintf (format : String) (args : List String) : String :=
  ⟨sprintfChars format.data args⟩

/-- Generate final url (endpoint.go, lines 45-64). -/
def Endpoint.generate (e : Endpoint) : String :=
  let url := e.BaseUrl
  let url :=
    if e.Route = "auth" then
      url ++ "/auth/token/"
    else if e.Route = "validatePurchase" then
      url ++ Sprintf "/api/validate/%s/inapp/%s/purchases/%s/"
        [mapIndex e.Vars "packageName", mapIndex e.Vars "productId",
         mapIndex e.Vars "purchaseToken"]
    else if e.Route = "getSubscriptionStatus" then
      url ++ Sprintf "/api/applications/%s/subscriptions/%s/purchases/%s/"
        [mapIndex e.Vars "packageName", mapIndex e.Vars "subscriptionId",
         mapIndex e.Vars "purchaseToken"]
    else if e.Route = "cancelSubscription" then
      url ++ Sprintf "/api/applications/%s/subscriptions/%s/purchases/%s/cancel/"
        [mapIndex e.Vars "packageName", mapIndex e.Vars "subscriptionId",
         mapIndex e.Vars "purchaseToken"]
    else
      url
  if e.AcceessToken ≠ "" then
    url ++ ("?access_token=" ++ e.AcceessToken)
  else
    url

/-! ## Library interfaces used by bazaar.go

`net/http`, `mime/multipart`, `regexp` and `encoding/json` belong to the Go
standard library.  The network and the multipart writer are parameters; the
regular expression of `requestTo` is interpreted by a small matcher; of the
JSON library the model keeps the control structure of `json.Unmarshal`
(syntax check, then target check, then decoding) and takes the grammar and the
field decoding as parameters. -/

/-- An `*http.Request` as far as the code sets it up. -/
structure Request where
  Method : String
  URL : String
  Body : Option String
  ContentType : Option String
  deriving DecidableEq

/-- A response body stream: either it can be read to the end, giving its
content, or reading it fails. -/
inductive BodyStream where
  | data (content : String)
  | unreadable
  deriving DecidableEq

structure Response where
  StatusCode : Int
  Body : BodyStream
  deriving DecidableEq

/-- The environment of a call. -/
structure Net where
  /-- Whether `url.Parse` accepts the text; `http.NewRequest` fails exactly
  when it does not (the methods used, GET and POST, are valid). -/
  parseURL : String → Bool
  /-- The round trip of `client.Do` on a request: a response, or `none` for a
  transport error. -/
  Do : Request → Option Response
  /-- The multipart writer: the fields, in the order they are written, give
  the encoded body and the value of `FormDataContentType`. -/
  multipart : List (String × String) → String × String

/-- `http.NewRequest(method, url, body)`; `none` is the nil request returned
together with an error. -/
def Net.NewRequest (net : Net) (method url : String) (body : Option String) : Option Request :=
  if net.parseURL url then
    some { Method := method, URL := url, Body := body, ContentType := none }
  else
    none

/-- `ioutil.ReadAll(resp.Body)`; `none` is a read error. -/
def ReadAll : BodyStream → Option String
  | .data content => some content
  | .unreadable => none

def StatusOK : Int := 200

/-- Single-character matchers of the regular expressions in the code. -/
inductive Atom where
  | lit (c : Char)
  | perlSpace

/-- The class `\s` of Go regular expressions is `[\t\n\f\r ]`. -/
def Atom.test : Atom → Char → Bool
  | .lit c, x => x == c
  | .perlSpace, x => x == '\t' || x == '\n' || x == '\x0c' || x == '\r' || x == ' '

/-- A pattern is a sequence of atoms, each taken once or one-or-more times. -/
inductive Node where
  | one (a : Atom)
  | plus (a : Atom)

/-- Whether the pattern matches a prefix of the input. -/
def matchHere : List Node → List Char → Bool
  | [], _ => true
  | .one _ :: _, [] => false
  | .plus _ :: _, [] => false
  | .one a :: rest, c :: cs => a.test c && matchHere rest cs
  | .plus a :: rest, c :: cs => a.test c && (matchHere rest cs || matchHere (.plus a :: rest) cs)

/-- Whether the pattern matches at some position of the input (the pattern has
no anchors, so `regexp.Match` searches the whole input). -/
def matchAnywhere (p : List Node) : List Char → Bool
  | [] => matchHere p []
  | c :: cs => matchHere p (c :: cs) || matchAnywhere p cs

/-- The pattern `{\s+}`: a left brace that opens no valid repetition is a
literal, then one or more `\s`, then a right brace. -/
def emptyObjectPattern : List Node :=
  [.one (.lit '\x7b'), .plus .perlSpace, .one (.lit '\x7d')]

/-- `regexp.Match("{\\s+}", body)`; the pattern compiles, so the error that
the code discards is always nil. -/
def regexpMatchEmptyObject (body : String) : Bool :=
  matchAnywhere emptyObjectPattern body.data

/-- The errors of `json.Unmarshal`. -/
inductive JsonError where
  | syntaxError
  | invalidUnmarshal
  | typeMismatch
  deriving DecidableEq

/-- The JSON library for a target type `T`. -/
structure Codec (T : Type) where
  /-- The syntax check `checkValid`: the text is one well-formed JSON value. -/
  checkValid : String → Bool
  /-- Decoding of well-formed text into a target; it returns the target as it
  leaves it and whether it met a value it could not store. -/
  decode : String → T → T × Bool

/-- `json.Unmarshal(data, v)`, `v` being nil or a pointer to a `T`: a syntax
error is reported before the target is looked at; a nil target is an
`InvalidUnmarshalError`; otherwise the text is decoded into the target. -/
def Unmarshal {T : Type} (j : Codec T) (data : String) (v : Option T) :
    Option JsonError × Option T :=
  if j.checkValid data then
    match v with
    | none => (some .invalidUnmarshal, none)
    | some t =>
      let r := j.decode data t
      (if r.2 then some .typeMismatch else none, some r.1)
  else
    (some .syntaxError, v)

/-! ### The syntax check of encoding/json

The scanner of `encoding/json` is a state machine over the bytes of the text
with a stack of enclosing containers.  It serves here as a concrete `Codec`
syntax check. -/

/-- The step functions of the scanner. -/
inductive Step where
  | beginValueOrEmpty | beginValue | beginStringOrEmpty | beginString
  | endValue | endTop
  | inString | inStringEsc | inStringEscU | inStringEscU1 | inStringEscU12 | inStringEscU123
  | neg | one | zero | dot | dot0 | e | eSign | e0
  | t | tr | tru | f | fa | fal | fals | n | nu | nul

/-- What encloses the value being scanned. -/
inductive ParseState where
  | objectKey | objectValue | arrayValue

/-- The scanner: current step, stack of enclosing containers (innermost
first) and whether the top-level value is complete. -/
structure Scanner where
  step : Step
  parseState : List ParseState
  endTop : Bool

def maxNestingDepth : Nat := 10000

def isSpace (c : Char) : Bool :=
  c == ' ' || c == '\t' || c == '\r' || c == '\n'

def isDigit (c : Char) : Bool :=
  '0'.toNat ≤ c.toNat && c.toNat ≤ '9'.toNat

def isHex (c : Char) : Bool :=
  isDigit c || ('a'.toNat ≤ c.toNat && c.toNat ≤ 'f'.toNat)
    || ('A'.toNat ≤ c.toNat && c.toNat ≤ 'F'.toNat)

/-- Entering a container; nesting deeper than the limit is an error. -/
def pushParseState (s : Scanner) (next : Step) (p : ParseState) : Option Scanner :=
  if s.parseState.length + 1 ≤ maxNestingDepth then
    some { s with step := next, parseState := p :: s.parseState }
  else
    none

/-- Leaving a container. -/
def popParseState (s : Scanner) : Scanner :=
  match s.parseState.tail with
  | [] => { step := .endTop, parseState := [], endTop := true }
  | rest => { s with step := .endValue, parseState := rest }

/-- The step after a complete value. -/
def stateEndValue (s : Scanner) (c : Char) : Option Scanner :=
  match s.parseState with
  | [] => if isSpace c then some { s with step := .endTop, endTop := true } else none
  | ps :: rest =>
    if isSpace c then some { s with step := .endValue }
    else
      match ps with
      | .objectKey =>
        if c == ':' then some { s with step := .beginValue, parseState := .objectValue :: rest }
        else none
      | .objectValue =>
        if c == ',' then some { s with step := .beginString, parseState := .objectKey :: rest }
        else if c == '\x7d' then some (popParseState s)
        else none
      | .arrayValue =>
        if c == ',' then some { s with step := .beginValue }
        else if c == ']' then some (popParseState s)
        else none

/-- The step at the start of a value. -/
def stateBeginValue (s : Scanner) (c : Char) : Option Scanner :=
  if isSpace c then some s
  else if c == '\x7b' then pushParseState s .beginStringOrEmpty .objectKey
  else if c == '[' then pushParseState s .beginValueOrEmpty .arrayValue
  else if c == '"' then some { s with step := .inString }
  else if c == '-' then some { s with step := .neg }
  else if c == '0' then some { s with step := .zero }
  else if c == 't' then some { s with step := .t }
  else if c == 'f' then some { s with step := .f }
  else if c == 'n' then some { s with step := .n }
  else if isDigit c then some { s with step := .one }
  else none

/-- One literal character of `true`, `false` or `null`. -/
def expectChar (s : Scanner) (c want : Char) (next : Step) : Option Scanner :=
  if c == want then some { s with step := next } else none

/-- One step of the scanner; `none` is a syntax error. -/
def scanStep (s : Scanner) (c : Char) : Option Scanner :=
  match s.step with
  | .beginValue => stateBeginValue s c
  | .beginValueOrEmpty =>
    if isSpace c then some s
    else if c == ']' then stateEndValue s c
    else stateBeginValue { s with step := .beginValue } c
  | .beginStringOrEmpty =>
    if isSpace c then some s
    else if c == '\x7d' then
      stateEndValue { s with parseState := .objectValue :: s.parseState.tail } c
    else if c == '"' then some { s with step := .inString }
    else none
  | .beginString =>
    if isSpace c then some s
    else if c == '"' then some { s with step := .inString }
    else none
  | .endValue => stateEndValue s c
  | .endTop => if isSpace c then some s else none
  | .inString =>
    if c == '"' then some { s with step := .endValue }
    else if c == '\\' then some { s with step := .inStringEsc }
    else if c.toNat < 32 then none
    else some s
  | .inStringEsc =>
    if c == 'b' || c == 'f' || c == 'n' || c == 'r' || c == 't' || c == '\\' || c == '/'
        || c == '"' then some { s with step := .inString }
    else if c == 'u' then some { s with step := .inStringEscU }
    else none
  | .inStringEscU => if isHex c then some { s with step := .inStringEscU1 } else none
  | .inStringEscU1 => if isHex c then some { s with step := .inStringEscU12 } else none
  | .inStringEscU12 => if isHex c then some { s with step := .inStringEscU123 } else none
  | .inStringEscU123 => if isHex c then some { s with step := .inString } else none
  | .neg =>
    if c == '0' then some { s with step := .zero }
    else if isDigit c then some { s with step := .one }
    else none
  | .one =>
    if isDigit c then some s
    else if c == '.' then some { s with step := .dot }
    else if c == 'e' || c == 'E' then some { s with step := .e }
    else stateEndValue s c
  | .zero =>
    if c == '.' then some { s with step := .dot }
    else if c == 'e' || c == 'E' then some { s with step := .e }
    else stateEndValue s c
  | .dot => if isDigit c then some { s with step := .dot0 } else none
  | .dot0 =>
    if isDigit c then some s
    else if c == 'e' || c == 'E' then some { s with step := .e }
    else stateEndValue s c
  | .e =>
    if c == '+' || c == '-' then some { s with step := .eSign }
    else if isDigit c then some { s with step := .e0 }
    else none
  | .eSign => if isDigit c then some { s with step := .e0 } else none
  | .e0 => if isDigit c then some s else stateEndValue s c
  | .t => expectChar s c 'r' .tr
  | .tr => expectChar s c 'u' .tru
  | .tru => expectChar s c 'e' .endValue
  | .f => expectChar s c 'a' .fa
  | .fa => expectChar s c 'l' .fal
  | .fal => expectChar s c 's' .fals
  | .fals => expectChar s c 'e' .endValue
  | .n => expectChar s c 'u' .nu
  | .nu => expectChar s c 'l' .nul
  | .nul => expectChar s c 'l' .endValue

/-- Running the scanner over the text; at the end of the text the top-level
value must be complete, which a final space decides for numbers and for a
value that has just closed. -/
def scanAll : Scanner → List Char → Bool
  | s, [] =>
    if s.endTop then true
    else
      match scanStep s ' ' with
      | some s1 => s1.endTop
      | none => false
  | s, c :: cs =>
    match scanStep s c with
    | some s1 => scanAll s1 cs
    | none => false

/-- The function `checkValid`: the text is exactly one JSON value, with
optional surrounding white space. -/
def checkValid (data : String) : Bool :=
  scanAll { step := .beginValue, parseState := [], endTop := false } data.data

/-- The JSON library with the syntax check above and a given field decoding. -/
def Codec.withDecode {T : Type} (decode : String → T → T × Bool) : Codec T :=
  { checkValid := Bazaar.checkValid, decode := decode }

/-- A field decoding that stores nothing and reports nothing, as decoding does
on text that carries no member of the target: `null`, or an object none of
whose keys names a field. -/
def storeNothing {T : Type} : String → T → T × Bool :=
  fun _ t => (t, false)

/-! ## form.go -/

/-- Multipart map structure; the list order is the order in which the map
iteration visits the fields. -/
abbrev Form := List (String × String)

/-- Form.Build (form.go, lines 12-23): body and content type. -/
def Form.Build (net : Net) (f : Form) : String × String :=
  net.multipart f

/-! ## bazaar.go -/

structure config where
  RefreshToken : String
  AccessToken : String
  ClientId : String
  ClientSecret : String
  deriving DecidableEq

structure token where
  AccessToken : String
  TokenType : String
  ExpiresIn : Int
  RefreshToken : String
  Scope : String
  deriving DecidableEq

/-- The client; its mutex has no effect on a single call. -/
structure Client where
  config : config
  deriving DecidableEq

/-- The zero value `token{}`. -/
def token.zero : token :=
  { AccessToken := "", TokenType := "", ExpiresIn := 0, RefreshToken := "", Scope := "" }

/-- Go errors made by `errors.New`: `none` is nil, `some msg` carries the text. -/
abbrev GoError := Option String

/-- The request that RefreshToken prepares (bazaar.go, lines 64-85): a POST
to the auth endpoint carrying the multipart form and its content type;
`none` when `http.NewRequest` fails. -/
def Client.authRequest (net : Net) (c : Client) : Option Request :=
  let endpoint := NewEndpoint "auth"
  let url := endpoint.generate
  let form : Form :=
    [("grant_type", "refresh_token"),
     ("client_id", c.config.ClientId),
     ("client_secret", c.config.ClientSecret),
     ("refresh_token", c.config.RefreshToken)]
  let built := Form.Build net form
  match net.NewRequest "POST" url (some built.1) with
  | none => none
  | some req => some { req with ContentType := some built.2 }

/-- RefreshToken (bazaar.go, lines 60-116): the returned error and the client
after the call.  `decodeToken` is `json.NewDecoder(resp.Body).Decode(&token)`:
the token after decoding and whether decoding failed, which the code does not
look at. -/
def Client.RefreshToken (net : Net) (decodeToken : BodyStream → token → token × Bool)
    (c : Client) : GoError × Client :=
  match c.authRequest net with
  | none => (some "CannotInitiateRequest", c)
  | some req =>
    match net.Do req with
    | none => (some "CannotSendRequest", c)
    | some resp =>
      if resp.StatusCode ≠ StatusOK then
        (some "InvalidCredentials", c)
      else
        let tok := (decodeToken resp.Body token.zero).1
        if tok.AccessToken = "" then
          (some "CannotGetAccessToken", c)
        else
          (none, { c with config := { c.config with AccessToken := tok.AccessToken } })

/-- NewClient (bazaar.go, lines 35-46). -/
def NewClient (net : Net) (decodeToken : BodyStream → token → token × Bool)
    (clientId clientSecret refreshToken : String) : Client × GoError :=
  let c : Client :=
    { config := { ClientId := clientId, ClientSecret := clientSecret,
                  RefreshToken := refreshToken, AccessToken := "" } }
  let r := c.RefreshToken net decodeToken
  (r.2, r.1)

structure Purchase where
  ConsumptionState : Int
  PurchaseState : Int
  Kind : String
  DeveloperPayload : String
  PurchaseTime : Int
  deriving DecidableEq

structure Subscription where
  Kind : String
  InitiationTimestampMsec : Int
  ValidUntilTimestampMsec : Int
  AutoRenewing : Bool
  deriving DecidableEq

def Purchase.zero : Purchase :=
  { ConsumptionState := 0, PurchaseState := 0, Kind := "", DeveloperPayload := "",
    PurchaseTime := 0 }

def Subscription.zero : Subscription :=
  { Kind := "", InitiationTimestampMsec := 0, ValidUntilTimestampMsec := 0,
    AutoRenewing := false }

/-- How a call ends: it returns, or the goroutine panics. -/
inductive Run (α : Type) where
  | returned (a : α)
  | panicked
  deriving DecidableEq

/-- The function requestTo (bazaar.go, lines 172-218).  The output target is
`none` for nil and `some t` for a pointer to a variable holding `t`; the
result is the returned error and the target after the call.  The error of
`http.NewRequest` is discarded, so a rejected URL leaves a nil request, which
`client.Do` dereferences. -/
def Client.requestTo {T : Type} (net : Net) (j : Codec T) (_c : Client)
    (endpoint : Endpoint) (output : Option T) : Run (GoError × Option T) :=
  let url := endpoint.generate
  match net.NewRequest "GET" url none with
  | none => .panicked
  | some req =>
    match net.Do req with
    | none => .returned (some "CannotSendRequest", output)
    | some resp =>
      if resp.StatusCode ≠ StatusOK then
        .returned (some "CannotGetData", output)
      else
        match ReadAll resp.Body with
        | none => .returned (some "CannotReadBody", output)
        | some body =>
          if body = "Access token has been expired" then
            .returned (some "AccessTokenExpired", output)
          else if endpoint.Route = "cancelSubscription" ∧ body = "" then
            .returned (none, output)
          else if regexpMatchEmptyObject body then
            .returned (some "CannotFindResource", output)
          else
            match Unmarshal j body output with
            | (some _, out) => .returned (some "Cannot parse JSON response", out)
            | (none, out) => .returned (none, out)

/-- The endpoint that PurchaseValidate builds (bazaar.go, lines 129-133). -/
def Client.purchaseValidateEndpoint (c : Client)
    (packageName productId purchaseToken : String) : Endpoint :=
  let endpoint := NewEndpoint "validatePurchase"
  let endpoint := endpoint.setOption "packageName" packageName
  let endpoint := endpoint.setOption "productId" productId
  let endpoint := endpoint.setOption "purchaseToken" purchaseToken
  endpoint.setAccessToken c.config.AccessToken

/-- PurchaseValidate (bazaar.go, lines 128-137): the purchase and the error. -/
def Client.PurchaseValidate (net : Net) (j : Codec Purchase) (c : Client)
    (packageName productId purchaseToken : String) : Run (Purchase × GoError) :=
  let endpoint := c.purchaseValidateEndpoint packageName productId purchaseToken
  match c.requestTo net j endpoint (some Purchase.zero) with
  | .panicked => .panicked
  | .returned (err, some p) => .returned (p, err)
  | .returned (err, none) => .returned (Purchase.zero, err)

/-- The endpoint that SubscriptionGet builds (bazaar.go, lines 149-153). -/
def Client.subscriptionGetEndpoint (c : Client)
    (packageName subscriptionId purchaseToken : String) : Endpoint :=
  let endpoint := NewEndpoint "getSubscriptionStatus"
  let endpoint := endpoint.setOption "packageName" packageName
  let endpoint := endpoint.setOption "subscriptionId" subscriptionId
  let endpoint := endpoint.setOption "purchaseToken" purchaseToken
  endpoint.setAccessToken c.config.AccessToken

/-- SubscriptionGet (bazaar.go, lines 148-157). -/
def Client.SubscriptionGet (net : Net) (j : Codec Subscription) (c : Client)
    (packageName subscriptionId purchaseToken : String) : Run (Subscription × GoError) :=
  let endpoint := c.subscriptionGetEndpoint packageName subscriptionId purchaseToken
  match c.requestTo net j endpoint (some Subscription.zero) with
  | .panicked => .panicked
  | .returned (err, some s) => .returned (s, err)
  | .returned (err, none) => .returned (Subscription.zero, err)

/-- The endpoint that SubscriptionCancel builds (bazaar.go, lines 161-165). -/
def Client.subscriptionCancelEndpoint (c : Client)
    (packageName subscriptionId purchaseToken : String) : Endpoint :=
  let endpoint := NewEndpoint "cancelSubscription"
  let endpoint := endpoint.setOption "packageName" packageName
  let endpoint := endpoint.setOption "subscriptionId" subscriptionId
  let endpoint := endpoint.setOption "purchaseToken" purchaseToken
  endpoint.setAccessToken c.config.AccessToken

/-- SubscriptionCancel (bazaar.go, lines 160-169): the output target is nil.
The JSON library is the one for a target of any type `T`; with a nil target
no value of `T` is ever made. -/
def Client.SubscriptionCancel {T : Type} (net : Net) (j : Codec T) (c : Client)
    (packageName subscriptionId purchaseToken : String) : Run GoError :=
  let endpoint := c.subscriptionCancelEndpoint packageName subscriptionId purchaseToken
  match c.requestTo net j endpoint (none : Option T) with
  | .panicked => .panicked
  | .returned (err, _) => .returned err

/-! ## The endpoint builder as the specification words it -/

/-- The path of a route: a fixed template per known route with the parameter
values in place, and nothing for any other route. -/
def specPath (route : String) (vars : List (String × String)) : String :=
  if route = "auth" then
    "/auth/token/"
  else if route = "validatePurchase" then
    "/api/validate/" ++ mapIndex vars "packageName" ++ "/inapp/" ++ mapIndex vars "productId"
      ++ "/purchases/" ++ mapIndex vars "purchaseToken" ++ "/"
  else if route = "getSubscriptionStatus" then
    "/api/applications/" ++ mapIndex vars "packageName" ++ "/subscriptions/"
      ++ mapIndex vars "subscriptionId" ++ "/purchases/" ++ mapIndex vars "purchaseToken" ++ "/"
  else if route = "cancelSubscription" then
    "/api/applications/" ++ mapIndex vars "packageName" ++ "/subscriptions/"
      ++ mapIndex vars "subscriptionId" ++ "/purchases/" ++ mapIndex vars "purchaseToken" ++ "/"
      ++ "cancel/"
  else
    ""

/-- The query suffix: the access token when one is set. -/
def specSuffix (accessToken : String) : String :=
  if accessToken = "" then "" else "?access_token=" ++ accessToken

/-! ## Concrete environments -/

/-- Quote escaping of multipart field names. -/
def escapeQuotes : List Char → List Char
  | [] => []
  | '\\' :: cs => '\\' :: '\\' :: escapeQuotes cs
  | '"' :: cs => '\\' :: '"' :: escapeQuotes cs
  | c :: cs => c :: escapeQuotes cs

/-- The parts of a multipart body, the first without a leading line break. -/
def multipartParts (boundary : String) : Bool → List (String × String) → String
  | _, [] => ""
  | first, (k, v) :: rest =>
    (if first then "" else "\r\n") ++ "--" ++ boundary ++ "\r\n"
      ++ "Content-Disposition: form-data; name=\"" ++ String.mk (escapeQuotes k.data) ++ "\"\r\n"
      ++ "\r\n" ++ v ++ multipartParts boundary false rest

/-- A multipart writer with a given boundary. -/
def multipartWith (boundary : String) (fields : List (String × String)) : String × String :=
  (multipartParts boundary true fields ++ "\r\n--" ++ boundary ++ "--\r\n",
   "multipart/form-data; boundary=" ++ boundary)

/-- A network on which every URL parses and every request gets the same
response. -/
def Net.answering (resp : Response) : Net :=
  { parseURL := fun _ => true, Do := fun _ => some resp, multipart := multipartWith "b0" }

/-- A token decoder that knows a table of documents: a body in the table
gives its access token, any other body is a decoding error that leaves the
token as it was. -/
def decodeTable (table : List (String × String)) : BodyStream → token → token × Bool
  | .data content, t =>
    match table.lookup content with
    | some a => ({ t with AccessToken := a }, false)
    | none => (t, true)
  | .unreadable, t => (t, true)

/-- A client used in the examples. -/
def exampleClient : Client :=
  { config := { RefreshToken := "r1", AccessToken := "a1", ClientId := "id", ClientSecret := "s3" } }

/-- A complete Purchase document whose developer payload is the text `{ }`. -/
def purchaseWithFragment : String :=
  "\x7b\"consumptionState\":0,\"purchaseState\":0,\"kind\":\"androidpublisher#inappPurchase\",\"developerPayload\":\"\x7b \x7d\",\"purchaseTime\":1414181378566\x7d"

/-! ## Lemmas -/

theorem mapIndex_cons_self (m : List (String × String)) (k v : String) :
    mapIndex ((k, v) :: m) k = v := by
  simp [mapIndex, List.lookup]

theorem mapIndex_cons_ne (m : List (String × String)) (k k1 v : String) (h : k ≠ k1) :
    mapIndex ((k1, v) :: m) k = mapIndex m k := by
  have hb : (k == k1) = false := by simpa using h
  simp [mapIndex, List.lookup, hb]

/-- Reading a key after assigning it gives the assigned value. -/
theorem mapIndex_mapAssign_self (m : List (String × String)) (k v : String) :
    mapIndex (mapAssign m k v) k = v := by
  simp [mapAssign, mapIndex_cons_self]

theorem lookup_filter_ne (m : List (String × String)) (k k1 : String) (h : k ≠ k1) :
    (m.filter (fun kv => kv.1 != k1)).lookup k = m.lookup k := by
  induction m with
  | nil => rfl
  | cons kv rest ih =>
    obtain ⟨a, b⟩ := kv
    by_cases ha : a = k1
    · subst ha
      have hb : (k == a) = false := by simpa using h
      simp [List.filter, List.lookup, hb, ih]
    · have hf : (a != k1) = true := by simpa using ha
      simp only [List.filter, hf, List.lookup]
      split <;> simp_all

/-- Assigning one key leaves the reading of every other key as it was. -/
theorem mapIndex_mapAssign_ne (m : List (String × String)) (k k1 v : String) (h : k ≠ k1) :
    mapIndex (mapAssign m k1 v) k = mapIndex m k := by
  unfold mapAssign
  rw [mapIndex_cons_ne _ _ _ _ h]
  simp [mapIndex, lookup_filter_ne m k k1 h]

/-- The remainder of the pattern after the left brace matches a non-empty run
of `\s` followed by a right brace. -/
theorem matchHere_spaces_brace (ws post : List Char) (hne : ws ≠ [])
    (hws : ∀ x ∈ ws, Atom.perlSpace.test x = true) :
    matchHere [.plus .perlSpace, .one (.lit '\x7d')] (ws ++ '\x7d' :: post) = true := by
  induction ws with
  | nil => exact absurd rfl hne
  | cons x rest ih =>
    have hx : Atom.perlSpace.test x = true := hws x (List.mem_cons_self _ _)
    by_cases hr : rest = []
    · subst hr
      simp only [List.nil_append, List.cons_append, matchHere, hx]
      simp [Atom.test]
    · have h2 := ih hr (fun y hy => hws y (List.mem_cons_of_mem _ hy))
      simp [matchHere, hx, h2]

theorem matchAnywhere_of_matchHere (p : List Node) (pre s : List Char)
    (h : matchHere p s = true) : matchAnywhere p (pre ++ s) = true := by
  induction pre with
  | nil =>
    cases s with
    | nil => simpa [matchAnywhere] using h
    | cons c cs => simp [matchAnywhere, h]
  | cons c cs ih => simp [matchAnywhere, ih]

/-- Every text that contains a left brace, one or more `\s` and a right brace
matches the pattern. -/
theorem regexpMatchEmptyObject_of_fragment (pre ws post : List Char) (hne : ws ≠ [])
    (hws : ∀ x ∈ ws, Atom.perlSpace.test x = true) :
    regexpMatchEmptyObject (String.mk (pre ++ '\x7b' :: (ws ++ '\x7d' :: post))) = true := by
  unfold regexpMatchEmptyObject
  apply matchAnywhere_of_matchHere
  have h := matchHere_spaces_brace ws post hne hws
  simp [emptyObjectPattern, matchHere, Atom.test, h]

theorem matchHere_spaces_brace_inv (s : List Char)
    (h : matchHere [.plus .perlSpace, .one (.lit '\x7d')] s = true) :
    ∃ ws post, s = ws ++ '\x7d' :: post ∧ ws ≠ []
      ∧ ∀ x ∈ ws, Atom.perlSpace.test x = true := by
  induction s with
  | nil => simp [matchHere] at h
  | cons c cs ih =>
    simp only [matchHere, Bool.and_eq_true, Bool.or_eq_true] at h
    obtain ⟨hc, h1 | h2⟩ := h
    · cases cs with
      | nil => simp [matchHere] at h1
      | cons d ds =>
        simp only [matchHere, Bool.and_eq_true] at h1
        have hd : d = '\x7d' := by simpa [Atom.test] using h1.1
        exact ⟨[c], ds, by simp [hd], by simp, by simpa using hc⟩
    · obtain ⟨ws, post, hs, _, hws⟩ := ih h2
      refine ⟨c :: ws, post, by simp [hs], by simp, ?_⟩
      intro x hx
      rcases List.mem_cons.mp hx with hx | hx
      · rw [hx]; exact hc
      · exact hws x hx

theorem matchAnywhere_inv (p : List Node) (s : List Char) (h : matchAnywhere p s = true) :
    ∃ pre rest, s = pre ++ rest ∧ matchHere p rest = true := by
  induction s with
  | nil => exact ⟨[], [], rfl, by simpa [matchAnywhere] using h⟩
  | cons c cs ih =>
    simp only [matchAnywhere, Bool.or_eq_true] at h
    rcases h with h | h
    · exact ⟨[], c :: cs, rfl, h⟩
    · obtain ⟨pre, rest, hs, hm⟩ := ih h
      exact ⟨c :: pre, rest, by simp [hs], hm⟩

/-- The matcher accepts exactly the texts that contain a left brace, one or
more `\s` and a right brace, which is what the unanchored pattern `{\s+}`
denotes. -/
theorem regexpMatchEmptyObject_iff (body : String) :
    regexpMatchEmptyObject body = true
      ↔ ∃ pre ws post, body.data = pre ++ '\x7b' :: (ws ++ '\x7d' :: post) ∧ ws ≠ []
          ∧ ∀ x ∈ ws, Atom.perlSpace.test x = true := by
  constructor
  · intro h
    obtain ⟨pre, rest, hs, hm⟩ := matchAnywhere_inv _ _ h
    cases rest with
    | nil => simp [emptyObjectPattern, matchHere] at hm
    | cons c cs =>
      simp only [emptyObjectPattern, matchHere, Bool.and_eq_true] at hm
      have hc : c = '\x7b' := by simpa [Atom.test] using hm.1
      obtain ⟨ws, post, hcs, hne, hws⟩ := matchHere_spaces_brace_inv cs hm.2
      exact ⟨pre, ws, post, by rw [hs, hc, hcs], hne, hws⟩
  · rintro ⟨pre, ws, post, hb, hne, hws⟩
    have h := regexpMatchEmptyObject_of_fragment pre ws post hne hws
    have hbody : body = String.mk (pre ++ '\x7b' :: (ws ++ '\x7d' :: post)) :=
      String.ext hb
    rw [hbody]
    exact h

/-- The generated URL of any endpoint: base URL, path of the route, query
suffix. -/
theorem generate_eq_spec (e : Endpoint) :
    e.generate = e.BaseUrl ++ specPath e.Route e.Vars ++ specSuffix e.AcceessToken := by
  simp only [Endpoint.generate, specPath, specSuffix]
  by_cases ht : e.AcceessToken = "" <;> simp only [ht, ne_eq, not_true_eq_false,
    not_false_eq_true, if_true, if_false] <;> split_ifs <;> apply String.ext <;>
    simp [Sprintf, sprintfChars, String.data_append]

/-- What requestTo returns once the request has been built and answered. -/
theorem requestTo_answered {T : Type} (net : Net) (j : Codec T) (c : Client)
    (endpoint : Endpoint) (output : Option T) (req : Request) (resp : Response)
    (hreq : net.NewRequest "GET" endpoint.generate none = some req)
    (hdo : net.Do req = some resp) :
    c.requestTo net j endpoint output =
      if resp.StatusCode ≠ StatusOK then
        .returned (some "CannotGetData", output)
      else
        match ReadAll resp.Body with
        | none => .returned (some "CannotReadBody", output)
        | some body =>
          if body = "Access token has been expired" then
            .returned (some "AccessTokenExpired", output)
          else if endpoint.Route = "cancelSubscription" ∧ body = "" then
            .returned (none, output)
          else if regexpMatchEmptyObject body then
            .returned (some "CannotFindResource", output)
          else
            match Unmarshal j body output with
            | (some _, out) => .returned (some "Cannot parse JSON response", out)
            | (none, out) => .returned (none, out) := by
  simp only [Client.requestTo, hreq, hdo]

theorem mk_brace_ne_expired (rest : List Char) :
    String.mk ('\x7b' :: rest) ≠ "Access token has been expired" := by
  intro h
  have h2 := congrArg (fun s => s.data.head?) h
  simp at h2

theorem mk_cons_ne_empty (x : Char) (rest : List Char) : String.mk (x :: rest) ≠ "" := by
  intro h
  have h2 := congrArg (fun s => s.data.length) h
  simp at h2

/-- With a nil target `json.Unmarshal` reports an error on every text. -/
theorem Unmarshal_nil_target {T : Type} (j : Codec T) (data : String) :
    ∃ e, Unmarshal j data (none : Option T) = (some e, none) := by
  unfold Unmarshal
  by_cases h : j.checkValid data = true
  · exact ⟨.invalidUnmarshal, by simp [h]⟩
  · exact ⟨.syntaxError, by simp [h]⟩

/-- The route of the endpoint SubscriptionCancel builds. -/
theorem subscriptionCancelEndpoint_route (c : Client) (p s t : String) :
    (c.subscriptionCancelEndpoint p s t).Route = "cancelSubscription" := rfl

/-- What SubscriptionCancel returns once its request has been built and
answered with status 200 and a readable body. -/
theorem SubscriptionCancel_answered {T : Type} (net : Net) (j : Codec T) (c : Client)
    (p s t : String) (req : Request) (resp : Response) (body : String)
    (hreq : net.NewRequest "GET" (c.subscriptionCancelEndpoint p s t).generate none = some req)
    (hdo : net.Do req = some resp)
    (hst : resp.StatusCode = 200)
    (hbody : resp.Body = .data body) :
    c.SubscriptionCancel net j p s t =
      if body = "Access token has been expired" then .returned (some "AccessTokenExpired")
      else if body = "" then .returned none
      else if regexpMatchEmptyObject body then .returned (some "CannotFindResource")
      else .returned (some "Cannot parse JSON response") := by
  obtain ⟨e, he⟩ := Unmarshal_nil_target j body
  simp only [Client.SubscriptionCancel]
  rw [requestTo_answered net j c _ none req resp hreq hdo]
  simp only [hst, hbody, StatusOK, ReadAll, subscriptionCancelEndpoint_route, he, ne_eq,
    not_true_eq_false, if_false, true_and]
  split_ifs <;> rfl

/-- Where the empty-object check does fire: for every route and every
status-200 response whose body is a left brace, one or more white-space
characters (space, tab, line feed, form feed, carriage return) and a right
brace, requestTo fails with CannotFindResource. -/
theorem requestTo_empty_object {T : Type} (net : Net) (j : Codec T) (c : Client)
    (endpoint : Endpoint) (output : Option T) (req : Request) (resp : Response)
    (ws : List Char)
    (hreq : net.NewRequest "GET" endpoint.generate none = some req)
    (hdo : net.Do req = some resp)
    (hst : resp.StatusCode = 200)
    (hne : ws ≠ [])
    (hws : ∀ x ∈ ws, x = ' ' ∨ x = '\t' ∨ x = '\n' ∨ x = '\x0c' ∨ x = '\r')
    (hbody : resp.Body = .data (String.mk ('\x7b' :: (ws ++ ['\x7d'])))) :
    c.requestTo net j endpoint output = .returned (some "CannotFindResource", output) := by
  rw [requestTo_answered net j c endpoint output req resp hreq hdo]
  have hm : regexpMatchEmptyObject (String.mk ('\x7b' :: (ws ++ ['\x7d']))) = true := by
    have h := regexpMatchEmptyObject_of_fragment [] ws [] hne
      (fun x hx => by rcases hws x hx with h | h | h | h | h <;> subst h <;> decide)
    simpa using h
  simp [hst, hbody, StatusOK, ReadAll, mk_brace_ne_expired, mk_cons_ne_empty, hm]

/-- An instance: a body with a space, a line feed and a tab between the
braces. -/
theorem requestTo_empty_object_witness :
    exampleClient.requestTo
        (Net.answering { StatusCode := 200, Body := .data "\x7b \n\t\x7d" })
        (Codec.withDecode storeNothing)
        (exampleClient.purchaseValidateEndpoint "com.example.app" "coins" "tok1")
        (some Purchase.zero)
      = .returned (some "CannotFindResource", some Purchase.zero) :=
  requestTo_empty_object _ _ _ _ _ _ _ [' ', '\n', '\t'] rfl rfl rfl (by decide) (by decide) rfl

/-! ## The claims -/

/-- C1. An endpoint made by NewEndpoint for a route, with any parameter map
and any access token, generates the base URL, then the path of the route with
the parameter values inserted unchanged (nothing for an unknown route), then
`?access_token=` and the token when the token is not empty. -/
theorem generate_NewEndpoint (route : String) (vars : List (String × String))
    (accessToken : String) :
    ({ NewEndpoint route with Vars := vars, AcceessToken := accessToken } : Endpoint).generate
      = "https://pardakht.cafebazaar.ir" ++ specPath route vars ++ specSuffix accessToken :=
  generate_eq_spec _

/-- C2. When the auth call is answered with status 200 and the decoded token
response carries a non-empty access token, RefreshToken returns no error and
stores that token in place of the previous one; the URLs that PurchaseValidate,
SubscriptionGet and SubscriptionCancel build afterwards end with
`?access_token=` followed by it. -/
theorem RefreshToken_stores_token (net : Net)
    (decodeToken : BodyStream → token → token × Bool) (c : Client)
    (req : Request) (resp : Response) (t : String)
    (hreq : c.authRequest net = some req)
    (hdo : net.Do req = some resp)
    (hst : resp.StatusCode = 200)
    (hdec : (decodeToken resp.Body token.zero).1.AccessToken = t)
    (ht : t ≠ "") :
    c.RefreshToken net decodeToken = (none, { config := { c.config with AccessToken := t } })
    ∧ ∀ packageName itemId purchaseToken : String,
        ((c.RefreshToken net decodeToken).2.purchaseValidateEndpoint
            packageName itemId purchaseToken).generate
          = "https://pardakht.cafebazaar.ir/api/validate/" ++ packageName ++ "/inapp/"
              ++ itemId ++ "/purchases/" ++ purchaseToken ++ "/" ++ ("?access_token=" ++ t)
        ∧ ((c.RefreshToken net decodeToken).2.subscriptionGetEndpoint
            packageName itemId purchaseToken).generate
          = "https://pardakht.cafebazaar.ir/api/applications/" ++ packageName
              ++ "/subscriptions/" ++ itemId ++ "/purchases/" ++ purchaseToken ++ "/"
              ++ ("?access_token=" ++ t)
        ∧ ((c.RefreshToken net decodeToken).2.subscriptionCancelEndpoint
            packageName itemId purchaseToken).generate
          = "https://pardakht.cafebazaar.ir/api/applications/" ++ packageName
              ++ "/subscriptions/" ++ itemId ++ "/purchases/" ++ purchaseToken ++ "/cancel/"
              ++ ("?access_token=" ++ t) := by
  have hr : c.RefreshToken net decodeToken
      = (none, { config := { c.config with AccessToken := t } }) := by
    subst hdec
    simp only [Client.RefreshToken, hreq, hdo, hst, StatusOK]
    simp [ht]
  refine ⟨hr, ?_⟩
  intro packageName itemId purchaseToken
  rw [hr]
  refine ⟨?_, ?_, ?_⟩
  · rw [generate_eq_spec]
    simp only [Client.purchaseValidateEndpoint, Endpoint.setOption, Endpoint.setAccessToken,
      NewEndpoint, Endpoint.setBaseUrl, Endpoint.setRoute, specPath, specSuffix]
    simp [mapIndex_mapAssign_self, mapIndex_mapAssign_ne, ht, String.append_assoc]
    rw [← String.append_assoc]
    rfl
  · rw [generate_eq_spec]
    simp only [Client.subscriptionGetEndpoint, Endpoint.setOption, Endpoint.setAccessToken,
      NewEndpoint, Endpoint.setBaseUrl, Endpoint.setRoute, specPath, specSuffix]
    simp [mapIndex_mapAssign_self, mapIndex_mapAssign_ne, ht, String.append_assoc]
    rw [← String.append_assoc]
    rfl
  · rw [generate_eq_spec]
    simp only [Client.subscriptionCancelEndpoint, Endpoint.setOption, Endpoint.setAccessToken,
      NewEndpoint, Endpoint.setBaseUrl, Endpoint.setRoute, specPath, specSuffix]
    simp [mapIndex_mapAssign_self, mapIndex_mapAssign_ne, ht, String.append_assoc]
    rw [← String.append_assoc]
    rfl

/-- An instance: the auth call is answered `{"access_token":"abc",...}` with
status 200; the client then holds `abc` and the purchase URL ends with
`?access_token=abc`. -/
theorem RefreshToken_stores_token_witness :
    exampleClient.RefreshToken
        (Net.answering { StatusCode := 200,
                         Body := .data "\x7b\"access_token\":\"abc\",\"token_type\":\"Bearer\"\x7d" })
        (decodeTable [("\x7b\"access_token\":\"abc\",\"token_type\":\"Bearer\"\x7d", "abc")])
      = (none, { config := { RefreshToken := "r1", AccessToken := "abc", ClientId := "id",
                             ClientSecret := "s3" } })
    ∧ (({ config := { RefreshToken := "r1", AccessToken := "abc", ClientId := "id",
                      ClientSecret := "s3" } } : Client).purchaseValidateEndpoint
          "com.example.app" "coins" "tok1").generate
        = "https://pardakht.cafebazaar.ir/api/validate/com.example.app/inapp/coins/purchases/tok1/?access_token=abc" := by
  have h := RefreshToken_stores_token
    (Net.answering { StatusCode := 200,
                     Body := .data "\x7b\"access_token\":\"abc\",\"token_type\":\"Bearer\"\x7d" })
    (decodeTable [("\x7b\"access_token\":\"abc\",\"token_type\":\"Bearer\"\x7d", "abc")])
    exampleClient _ _ "abc" rfl rfl rfl (by decide) (by decide)
  refine ⟨h.1, ?_⟩
  have h2 := (h.2 "com.example.app" "coins" "tok1").1
  rw [h.1] at h2
  exact h2

/-- C3. When the auth call is answered with a status other than 200, whatever
the body, RefreshToken fails with InvalidCredentials and the client, stored
access token included, is the same after the call as before it. -/
theorem RefreshToken_invalid_credentials (net : Net)
    (decodeToken : BodyStream → token → token × Bool) (c : Client)
    (req : Request) (resp : Response)
    (hreq : c.authRequest net = some req)
    (hdo : net.Do req = some resp)
    (hst : resp.StatusCode ≠ 200) :
    c.RefreshToken net decodeToken = (some "InvalidCredentials", c) := by
  simp only [Client.RefreshToken, hreq, hdo, StatusOK]
  simp [hst]

/-- An instance: the auth call is answered with status 401. -/
theorem RefreshToken_invalid_credentials_witness :
    exampleClient.RefreshToken
        (Net.answering { StatusCode := 401,
                         Body := .data "\x7b\"access_token\":\"abc\",\"token_type\":\"Bearer\"\x7d" })
        (decodeTable [("\x7b\"access_token\":\"abc\",\"token_type\":\"Bearer\"\x7d", "abc")])
      = (some "InvalidCredentials", exampleClient) :=
  RefreshToken_invalid_credentials _ _ _ _ _ rfl rfl (by decide)

/-- C4. For every route and every output target, a status-200 response whose
body is exactly `Access token has been expired` makes requestTo fail with
AccessTokenExpired; the target is not touched. -/
theorem requestTo_expired {T : Type} (net : Net) (j : Codec T) (c : Client)
    (endpoint : Endpoint) (output : Option T) (req : Request) (resp : Response)
    (hreq : net.NewRequest "GET" endpoint.generate none = some req)
    (hdo : net.Do req = some resp)
    (hst : resp.StatusCode = 200)
    (hbody : resp.Body = .data "Access token has been expired") :
    c.requestTo net j endpoint output = .returned (some "AccessTokenExpired", output) := by
  rw [requestTo_answered net j c endpoint output req resp hreq hdo]
  simp [hst, hbody, StatusOK, ReadAll]

/-- An instance: the expiry text on the cancelSubscription route with a nil
target. -/
theorem requestTo_expired_witness :
    exampleClient.requestTo
        (Net.answering { StatusCode := 200, Body := .data "Access token has been expired" })
        (Codec.withDecode storeNothing) (NewEndpoint "cancelSubscription")
        (none : Option Purchase)
      = .returned (some "AccessTokenExpired", none) :=
  requestTo_expired _ _ _ _ _
    { Method := "GET", URL := "https://pardakht.cafebazaar.ir/api/applications//subscriptions//purchases//cancel/",
      Body := none, ContentType := none }
    { StatusCode := 200, Body := .data "Access token has been expired" }
    (by decide) rfl rfl rfl

/-- C5, at the failing input. A status-200 response whose body is `{}`, the
empty JSON object written with no white space, passes the JSON syntax check,
but the pattern `{\s+}` asks for at least one white-space character and does
not match it: the body goes to the JSON parser, and requestTo returns no error
with the zero Purchase for a Purchase target (the parse error for a nil
target) instead of CannotFindResource. -/
theorem requestTo_empty_object_no_space :
    checkValid "\x7b\x7d" = true
    ∧ regexpMatchEmptyObject "\x7b\x7d" = false
    ∧ exampleClient.requestTo
        (Net.answering { StatusCode := 200, Body := .data "\x7b\x7d" })
        (Codec.withDecode storeNothing)
        (exampleClient.purchaseValidateEndpoint "com.example.app" "coins" "tok1")
        (some Purchase.zero)
      = .returned (none, some Purchase.zero)
    ∧ exampleClient.requestTo
        (Net.answering { StatusCode := 200, Body := .data "\x7b\x7d" })
        (Codec.withDecode (storeNothing : String → Purchase → Purchase × Bool))
        (exampleClient.subscriptionCancelEndpoint "com.example.app" "gold" "tok1")
        none
      = .returned (some "Cannot parse JSON response", none) := by
  refine ⟨by decide, by decide, by decide, by decide⟩

/-- C6. For every endpoint whose route is cancelSubscription, a status-200
response with an empty body makes requestTo return no error and leave the
output target as it was; SubscriptionCancel, which dispatches such an
endpoint, then returns success. -/
theorem requestTo_cancel_empty_body {T : Type} (net : Net) (j : Codec T) (c : Client)
    (endpoint : Endpoint) (output : Option T) (req : Request) (resp : Response)
    (hroute : endpoint.Route = "cancelSubscription")
    (hreq : net.NewRequest "GET" endpoint.generate none = some req)
    (hdo : net.Do req = some resp)
    (hst : resp.StatusCode = 200)
    (hbody : resp.Body = .data "") :
    c.requestTo net j endpoint output = .returned (none, output)
    ∧ ∀ packageName subscriptionId purchaseToken : String,
        endpoint = c.subscriptionCancelEndpoint packageName subscriptionId purchaseToken →
        c.SubscriptionCancel net j packageName subscriptionId purchaseToken
          = .returned none := by
  have key : ∀ out : Option T, c.requestTo net j endpoint out = .returned (none, out) := by
    intro out
    rw [requestTo_answered net j c endpoint out req resp hreq hdo]
    simp [hst, hbody, StatusOK, ReadAll, hroute]
  refine ⟨key output, ?_⟩
  intro packageName subscriptionId purchaseToken he
  simp only [Client.SubscriptionCancel, ← he, key none]

/-- An instance: the endpoint that SubscriptionCancel builds, answered with
status 200 and an empty body. -/
theorem requestTo_cancel_empty_body_witness :
    exampleClient.requestTo
        (Net.answering { StatusCode := 200, Body := .data "" })
        (Codec.withDecode storeNothing)
        (exampleClient.subscriptionCancelEndpoint "com.example.app" "gold" "tok1")
        (some Purchase.zero)
      = .returned (none, some Purchase.zero)
    ∧ exampleClient.SubscriptionCancel
        (Net.answering { StatusCode := 200, Body := .data "" })
        (Codec.withDecode (storeNothing : String → Purchase → Purchase × Bool))
        "com.example.app" "gold" "tok1"
      = .returned none := by
  have h := requestTo_cancel_empty_body
    (Net.answering { StatusCode := 200, Body := .data "" })
    (Codec.withDecode storeNothing) exampleClient
    (exampleClient.subscriptionCancelEndpoint "com.example.app" "gold" "tok1")
    (some Purchase.zero) _ _ rfl rfl rfl rfl rfl
  exact ⟨h.1, h.2 "com.example.app" "gold" "tok1" rfl⟩

/-- C7. For the routes validatePurchase and getSubscriptionStatus, a
status-200 response whose body fails the JSON syntax check, and is neither the
expiry text nor a match of the empty-object pattern, makes requestTo fail with
`Cannot parse JSON response` and leave the output target as it was; so
PurchaseValidate and SubscriptionGet return the zero-valued Purchase and
Subscription together with that error. -/
theorem requestTo_malformed_json {T : Type} (net : Net) (j : Codec T) (c : Client)
    (endpoint : Endpoint) (output : Option T) (req : Request) (resp : Response)
    (body : String)
    (hroute : endpoint.Route = "validatePurchase" ∨ endpoint.Route = "getSubscriptionStatus")
    (hreq : net.NewRequest "GET" endpoint.generate none = some req)
    (hdo : net.Do req = some resp)
    (hst : resp.StatusCode = 200)
    (hbody : resp.Body = .data body)
    (hexp : body ≠ "Access token has been expired")
    (hre : regexpMatchEmptyObject body = false)
    (hbad : j.checkValid body = false) :
    c.requestTo net j endpoint output
      = .returned (some "Cannot parse JSON response", output)
    ∧ (∀ (jp : Codec Purchase) (packageName productId purchaseToken : String),
        jp.checkValid body = false →
        endpoint = c.purchaseValidateEndpoint packageName productId purchaseToken →
        c.PurchaseValidate net jp packageName productId purchaseToken
          = .returned (Purchase.zero, some "Cannot parse JSON response"))
    ∧ (∀ (js : Codec Subscription) (packageName subscriptionId purchaseToken : String),
        js.checkValid body = false →
        endpoint = c.subscriptionGetEndpoint packageName subscriptionId purchaseToken →
        c.SubscriptionGet net js packageName subscriptionId purchaseToken
          = .returned (Subscription.zero, some "Cannot parse JSON response")) := by
  have hnc : endpoint.Route ≠ "cancelSubscription" := by
    rcases hroute with h | h <;> rw [h] <;> decide
  have key : ∀ (U : Type) (ju : Codec U) (out : Option U), ju.checkValid body = false →
      c.requestTo net ju endpoint out
        = .returned (some "Cannot parse JSON response", out) := by
    intro U ju out hju
    rw [requestTo_answered net ju c endpoint out req resp hreq hdo]
    simp [hst, hbody, StatusOK, ReadAll, hexp, hnc, hre, Unmarshal, hju]
  refine ⟨key T j output hbad, ?_, ?_⟩
  · intro jp packageName productId purchaseToken hjp he
    simp only [Client.PurchaseValidate, ← he, key Purchase jp _ hjp]
  · intro js packageName subscriptionId purchaseToken hjs he
    simp only [Client.SubscriptionGet, ← he, key Subscription js _ hjs]

/-- An instance: a body that stops in the middle of an object. -/
theorem requestTo_malformed_json_witness :
    exampleClient.requestTo
        (Net.answering { StatusCode := 200, Body := .data "\x7b\"kind\": \"inapp\", \"purchaseState\": " })
        (Codec.withDecode storeNothing)
        (exampleClient.purchaseValidateEndpoint "com.example.app" "coins" "tok1")
        (some Purchase.zero)
      = .returned (some "Cannot parse JSON response", some Purchase.zero)
    ∧ exampleClient.PurchaseValidate
        (Net.answering { StatusCode := 200, Body := .data "\x7b\"kind\": \"inapp\", \"purchaseState\": " })
        (Codec.withDecode storeNothing)
        "com.example.app" "coins" "tok1"
      = .returned (Purchase.zero, some "Cannot parse JSON response") := by
  have h := requestTo_malformed_json
    (Net.answering { StatusCode := 200, Body := .data "\x7b\"kind\": \"inapp\", \"purchaseState\": " })
    (Codec.withDecode storeNothing) exampleClient
    (exampleClient.purchaseValidateEndpoint "com.example.app" "coins" "tok1")
    (some Purchase.zero) _ _ "\x7b\"kind\": \"inapp\", \"purchaseState\": "
    (Or.inl rfl) rfl rfl rfl rfl (by decide) (by decide) (by decide)
  exact ⟨h.1, h.2.1 (Codec.withDecode storeNothing) "com.example.app" "coins" "tok1"
    (by decide) rfl⟩

/-- C8. For every route, every output target and every response whose status
is not 200, requestTo fails with CannotGetData whatever the body is, and the
target is not touched. -/
theorem requestTo_status_not_ok {T : Type} (net : Net) (j : Codec T) (c : Client)
    (endpoint : Endpoint) (output : Option T) (req : Request) (resp : Response)
    (hreq : net.NewRequest "GET" endpoint.generate none = some req)
    (hdo : net.Do req = some resp)
    (hst : resp.StatusCode ≠ 200) :
    c.requestTo net j endpoint output = .returned (some "CannotGetData", output) := by
  rw [requestTo_answered net j c endpoint output req resp hreq hdo]
  simp [hst, StatusOK]

/-- An instance: a response with status 404 whose body is the expiry text. -/
theorem requestTo_status_not_ok_witness :
    exampleClient.requestTo
        (Net.answering { StatusCode := 404, Body := .data "Access token has been expired" })
        (Codec.withDecode storeNothing)
        (exampleClient.subscriptionCancelEndpoint "com.example.app" "gold" "tok1")
        (some Purchase.zero)
      = .returned (some "CannotGetData", some Purchase.zero) :=
  requestTo_status_not_ok _ _ _ _ _ _ _ rfl rfl (by decide)

/-- C9, at the failing input. A status-200 response whose body is a complete,
well-formed Purchase document with the developer payload `{ }` passes the JSON
syntax check and is not an empty object, yet the pattern matches inside it and
requestTo fails with CannotFindResource, whatever the JSON decoding would
have stored. -/
theorem requestTo_payload_with_fragment (j : Codec Purchase) :
    checkValid purchaseWithFragment = true
    ∧ exampleClient.requestTo
        (Net.answering { StatusCode := 200, Body := .data purchaseWithFragment })
        j
        (exampleClient.purchaseValidateEndpoint "com.example.app" "coins" "tok1")
        (some Purchase.zero)
      = .returned (some "CannotFindResource", some Purchase.zero) := by
  refine ⟨by decide, ?_⟩
  have h := requestTo_answered
    (Net.answering { StatusCode := 200, Body := .data purchaseWithFragment }) j exampleClient
    (exampleClient.purchaseValidateEndpoint "com.example.app" "coins" "tok1")
    (some Purchase.zero)
    { Method := "GET",
      URL := (exampleClient.purchaseValidateEndpoint "com.example.app" "coins" "tok1").generate,
      Body := none, ContentType := none }
    { StatusCode := 200, Body := .data purchaseWithFragment }
    rfl rfl
  have hm : regexpMatchEmptyObject purchaseWithFragment = true := by decide
  have hx : purchaseWithFragment ≠ "Access token has been expired" := by decide
  have he : purchaseWithFragment ≠ "" := by decide
  rw [h]
  simp [StatusOK, ReadAll, hm, hx, he]

/-- C10. SubscriptionCancel returns no error exactly when its request is
answered with status 200 and an empty body; on a status-200 response with a
non-empty body it returns AccessTokenExpired, CannotFindResource or the parse
error, whatever the JSON library makes of the text. -/
theorem SubscriptionCancel_success_iff {T : Type} (net : Net) (j : Codec T) (c : Client)
    (packageName subscriptionId purchaseToken : String) :
    (c.SubscriptionCancel net j packageName subscriptionId purchaseToken = .returned none
      ↔ ∃ req resp,
          net.NewRequest "GET"
              (c.subscriptionCancelEndpoint packageName subscriptionId purchaseToken).generate
              none = some req
          ∧ net.Do req = some resp ∧ resp.StatusCode = 200 ∧ resp.Body = .data "")
    ∧ ∀ (req : Request) (resp : Response) (body : String),
        net.NewRequest "GET"
            (c.subscriptionCancelEndpoint packageName subscriptionId purchaseToken).generate
            none = some req →
        net.Do req = some resp → resp.StatusCode = 200 → resp.Body = .data body → body ≠ "" →
        c.SubscriptionCancel net j packageName subscriptionId purchaseToken
            = .returned (some "AccessTokenExpired")
          ∨ c.SubscriptionCancel net j packageName subscriptionId purchaseToken
            = .returned (some "CannotFindResource")
          ∨ c.SubscriptionCancel net j packageName subscriptionId purchaseToken
            = .returned (some "Cannot parse JSON response") := by
  refine ⟨⟨?_, ?_⟩, ?_⟩
  · intro h
    cases hreq : net.NewRequest "GET"
        (c.subscriptionCancelEndpoint packageName subscriptionId purchaseToken).generate none with
    | none =>
      simp [Client.SubscriptionCancel, Client.requestTo, hreq] at h
    | some req =>
      cases hdo : net.Do req with
      | none => simp [Client.SubscriptionCancel, Client.requestTo, hreq, hdo] at h
      | some resp =>
        by_cases hst : resp.StatusCode = 200
        · cases hbody : resp.Body with
          | unreadable =>
            simp only [Client.SubscriptionCancel] at h
            rw [requestTo_answered net j c _ none req resp hreq hdo] at h
            simp [hst, hbody, StatusOK, ReadAll] at h
          | data body =>
            rw [SubscriptionCancel_answered net j c _ _ _ req resp body hreq hdo hst hbody] at h
            refine ⟨req, resp, rfl, hdo, hst, ?_⟩
            by_cases hb : body = ""
            · rw [hbody, hb]
            · exfalso
              revert h
              simp only [hb, if_false]
              split_ifs <;> simp
        · simp only [Client.SubscriptionCancel] at h
          rw [requestTo_answered net j c _ none req resp hreq hdo] at h
          simp [hst, StatusOK] at h
  · rintro ⟨req, resp, hreq, hdo, hst, hbody⟩
    rw [SubscriptionCancel_answered net j c _ _ _ req resp "" hreq hdo hst hbody]
    simp
  · intro req resp body hreq hdo hst hbody hb
    rw [SubscriptionCancel_answered net j c _ _ _ req resp body hreq hdo hst hbody]
    simp only [hb, if_false]
    split_ifs <;> simp

end Bazaar
